import Mathlib

/-!
Verification of the schedule-metrics core of `src/schedule.py`.

The embedding below translates, line by line, the two operations the
specification is about:

* `calculate_metrics(df)` (schedule.py lines 233-275): per-row duration and
  percent-of-baseline computation, including the guard
  `if start_time and end_time and start_time != "nan" and end_time != "nan"`
  (line 249), `datetime.strptime(_.strip(), "%H:%M")` parsing (lines 252-253),
  the overnight wrap `if end < start: end += 1 day` (lines 256-257),
  `(end - start).seconds // 60` (line 260) and
  `round(duration_min / TOTAL_MINUTES * 100, 1)` (line 261), with the
  try/except fallback that writes `0.0` into both derived columns
  (lines 266-273).

* the aggregation inside `create_simple_pie_chart(df, group_field)`
  (schedule.py lines 295-325): filtering out rows whose grouping value is
  NaN, `""` or `"nan"` or whose duration is NaN, grouping by the field,
  summing durations, and `(total / TOTAL_MINUTES * 100).round(1)`.

Modelling conventions:
* A pandas cell that may be NaN is an `Option` (`none` = NaN).  The code
  stringifies `Start`/`End` immediately (`str(row.get(...))`), so those are
  plain `String`s in which a NaN cell appears as the string `"nan"`.
* `datetime.strptime(s, "%H:%M")` succeeds exactly on `H:M` where `H` is one
  or two digits with value 0-23 and `M` is one or two digits with value 0-59,
  with the whole string consumed; this is `strptimeHM` below.  Raising
  `ValueError` is modelled as `none` (and as `Except.error` in the exception
  model `calculate_metricsE`, which exists to state that no exception ever
  escapes the function).
* Python's `round(x, 1)` and numpy/pandas `.round(1)` round to the nearest
  multiple of 1/10, ties to the even multiple.  This is `round1` below,
  computed in exact rational arithmetic.
* Machine floats are not modelled; every concrete value appearing in the
  theorems below (multiples of 1/16, 1/10 etc.) is exactly representable and
  exactly computed by the corresponding Python float pipeline.
-/

attribute [local semireducible] Rat.add Rat.sub Rat.mul Rat.inv

/-- ASCII whitespace stripped by Python's `str.strip()`. -/
def isPySpace (c : Char) : Bool :=
  c = ' ' || c = '\t' || c = '\n' || c = '\r' || c = Char.ofNat 11 || c = Char.ofNat 12

/-- `s.strip()` (schedule.py lines 252-253). -/
def strip (s : String) : String :=
  ⟨((s.data.dropWhile isPySpace).reverse.dropWhile isPySpace).reverse⟩

/-- Split a character list at every colon (the separators of `"%H:%M"`). -/
def splitOnColon : List Char → List (List Char)
  | [] => [[]]
  | c :: rest =>
    let r := splitOnColon rest
    if c = ':' then [] :: r
    else
      match r with
      | h :: t => (c :: h) :: t
      | [] => [[c]]

/-- Decimal value of a digit list (only used under an all-digits guard). -/
def digitsToNat (l : List Char) : Nat :=
  l.foldl (fun a c => a * 10 + (c.toNat - 48)) 0

/-- `datetime.strptime(s, "%H:%M").time()` as a partial function: `some (h, m)`
on exactly the strings the CPython `_strptime` regex
`(2[0-3]|[0-1]\d|\d):([0-5]\d|\d)` matches in full, `none` where
`strptime` raises `ValueError`. -/
def strptimeHM (s : String) : Option (Nat × Nat) :=
  match splitOnColon s.data with
  | [hs, ms] =>
    if (hs.length = 1 ∨ hs.length = 2) ∧ (ms.length = 1 ∨ ms.length = 2) ∧
        hs.all Char.isDigit ∧ ms.all Char.isDigit ∧
        digitsToNat hs ≤ 23 ∧ digitsToNat ms ≤ 59 then
      some (digitsToNat hs, digitsToNat ms)
    else none
  | _ => none

/-- `TOTAL_MINUTES = 12 * 60` (schedule.py line 13). -/
def TOTAL_MINUTES : Nat := 12 * 60

/-- Minutes since midnight of a parsed `(hour, minute)` pair. -/
def toMinutes (t : Nat × Nat) : Nat := t.1 * 60 + t.2

/-- Lines 256-260 of schedule.py on minute counts: if `end < start` add one
day to `end`, then `(end - start).seconds // 60`. -/
def durationMin (s e : Nat) : Nat :=
  if e < s then e + 1440 - s else e - s

/-- Round-half-to-even to the nearest integer (the tie rule of CPython's
`round` and of numpy's `.round`). -/
def roundHalfEvenInt (q : ℚ) : ℤ :=
  if q - ⌊q⌋ < 1/2 then ⌊q⌋
  else if 1/2 < q - ⌊q⌋ then ⌊q⌋ + 1
  else if ⌊q⌋ % 2 = 0 then ⌊q⌋ else ⌊q⌋ + 1

/-- `round(x, 1)`: nearest multiple of 1/10, ties to even. -/
def round1 (q : ℚ) : ℚ := (roundHalfEvenInt (q * 10) : ℚ) / 10

/-- The body of the per-row loop of `calculate_metrics` (schedule.py lines
243-273), as a function of the stringified `Start`/`End` cells:
`none` means the row is skipped (the guard on line 249 failed, so neither
derived column is written), `some (d, p)` means the two derived columns are
set to `d` and `p`.  The inner `except` branch (lines 266-269) yields
`some (0, 0)`. -/
def calcRowUpdate (start_time end_time : String) : Option (ℚ × ℚ) :=
  if start_time ≠ "" ∧ end_time ≠ "" ∧ start_time ≠ "nan" ∧ end_time ≠ "nan" then
    match strptimeHM (strip start_time), strptimeHM (strip end_time) with
    | some st, some et =>
      let d := durationMin (toMinutes st) (toMinutes et)
      some ((d : ℚ), round1 ((d : ℚ) / (TOTAL_MINUTES : ℚ) * 100))
    | _, _ => some (0, 0)
  else
    none

/-- One row of the schedule dataframe.  `Start`/`End` are already
stringified (a NaN cell reads `"nan"`); the remaining columns keep NaN as
`none`. -/
structure Row where
  start : String
  end_ : String
  category : Option String
  activity : Option String
  comment : Option String
  duration : Option ℚ
  percent : Option ℚ
deriving DecidableEq

/-- Effect of one iteration of the loop in `calculate_metrics` on its row. -/
def updateRow (r : Row) : Row :=
  match calcRowUpdate r.start r.end_ with
  | some (d, p) => { r with duration := some d, percent := some p }
  | none => r

/-- `calculate_metrics(df)` (schedule.py lines 233-275).  The empty-input
branch returns the empty frame, i.e. `[]`. -/
def calculate_metrics (rows : List Row) : List Row :=
  rows.map updateRow

/-- `strptime` with its `ValueError` made explicit, for the exception model. -/
def strptimeHME (s : String) : Except String (Nat × Nat) :=
  match strptimeHM s with
  | some t => Except.ok t
  | none => Except.error "ValueError"

/-- The body of the inner `try` (schedule.py lines 250-265): any parse
failure escapes as an exception. -/
def rowTryBody (start_time end_time : String) : Except String (ℚ × ℚ) := do
  let st ← strptimeHME (strip start_time)
  let et ← strptimeHME (strip end_time)
  let d := durationMin (toMinutes st) (toMinutes et)
  pure ((d : ℚ), round1 ((d : ℚ) / (TOTAL_MINUTES : ℚ) * 100))

/-- One loop iteration with exceptions made explicit: the `except` on
line 266 catches whatever `rowTryBody` raises and writes zeros. -/
def updateRowE (r : Row) : Except String Row :=
  if r.start ≠ "" ∧ r.end_ ≠ "" ∧ r.start ≠ "nan" ∧ r.end_ ≠ "nan" then
    match rowTryBody r.start r.end_ with
    | Except.ok (d, p) => Except.ok { r with duration := some d, percent := some p }
    | Except.error _ => Except.ok { r with duration := some 0, percent := some 0 }
  else
    Except.ok r

/-- `calculate_metrics` in the exception model: an uncaught exception in any
row would propagate out. -/
def calculate_metricsE : List Row → Except String (List Row)
  | [] => Except.ok []
  | r :: rest => do
    let r2 ← updateRowE r
    let rest2 ← calculate_metricsE rest
    pure (r2 :: rest2)

/-- The grouping column handed to `create_simple_pie_chart` (the app passes
`"Category"` or `"Activity"`). -/
inductive GroupField where
  | category
  | activity
deriving DecidableEq

/-- `row[group_field]`. -/
def groupVal (r : Row) : GroupField → Option String
  | GroupField.category => r.category
  | GroupField.activity => r.activity

/-- The row filter of schedule.py lines 302-304: group value not NaN,
duration not NaN, group value (as string) neither `""` nor `"nan"`. -/
def validRow (gf : GroupField) (r : Row) : Bool :=
  match groupVal r gf, r.duration with
  | some g, some _ => (g != "") && (g != "nan")
  | _, _ => false

/-- Grouping key of a (valid) row. -/
def keyOf (gf : GroupField) (r : Row) : String :=
  (groupVal r gf).getD ""

/-- One aggregation bucket: group label, summed minutes, percent of the
12-hour baseline (schedule.py lines 324-325). -/
structure Bucket where
  key : String
  total : ℚ
  percent : ℚ
deriving DecidableEq

/-- Insertion into a lexicographically sorted key list (pandas `groupby`
sorts group keys). -/
def insertSorted (k : String) : List String → List String
  | [] => [k]
  | x :: xs => if k ≤ x then k :: x :: xs else x :: insertSorted k xs

/-- Sort the group keys, as pandas `groupby(sort=True)` does. -/
def sortKeys (l : List String) : List String :=
  l.foldr insertSorted []

/-- Deduplicate, keeping first occurrences. -/
def dedupAux (seen : List String) : List String → List String
  | [] => []
  | x :: xs => if seen.contains x then dedupAux seen xs else x :: dedupAux (x :: seen) xs

/-- Deduplicate a key list. -/
def dedup (l : List String) : List String := dedupAux [] l

/-- The bucket of one group key: sum of `Duration (min)` over the rows of the
group, and `(total / TOTAL_MINUTES * 100).round(1)` (schedule.py lines
324-325). -/
def bucketFor (valid : List Row) (gf : GroupField) (k : String) : Bucket :=
  let tot := ((valid.filter (fun r => keyOf gf r == k)).map (fun r => r.duration.getD 0)).sum
  ⟨k, tot, round1 (tot / (TOTAL_MINUTES : ℚ) * 100)⟩

/-- `groupby(group_field)["Duration (min)"].sum()` plus the percent column,
over the already-filtered rows. -/
def aggregateValid (valid : List Row) (gf : GroupField) : List Bucket :=
  (sortKeys (dedup (valid.map (keyOf gf)))).map (bucketFor valid gf)

/-- The aggregation performed by `create_simple_pie_chart` (schedule.py lines
295-325): filter out invalid rows, then group and sum.  When no row
survives the filter the chart shows a placeholder; at the bucket level the
result is the empty list. -/
def aggregate (rows : List Row) (gf : GroupField) : List Bucket :=
  aggregateValid (rows.filter (validRow gf)) gf

/-! ### Helper lemmas -/

/-- A string whose stripped form parses is neither empty nor `"nan"`, so it
passes the guard on line 249 of schedule.py. -/
theorem strip_parse_ne {s : String} {t : Nat × Nat}
    (h : strptimeHM (strip s) = some t) : s ≠ "" ∧ s ≠ "nan" := by
  refine ⟨?_, ?_⟩
  · rintro rfl
    have hn : strptimeHM (strip "") = none := rfl
    rw [hn] at h
    cases h
  · rintro rfl
    have hn : strptimeHM (strip "nan") = none := rfl
    rw [hn] at h
    cases h

/-- A successful parse yields an hour at most 23 and a minute at most 59. -/
theorem strptimeHM_bounds {s : String} {t : Nat × Nat}
    (hp : strptimeHM s = some t) : t.1 ≤ 23 ∧ t.2 ≤ 59 := by
  unfold strptimeHM at hp
  split at hp
  · split at hp
    · rename_i hcond
      injection hp with hp2
      cases hp2
      exact ⟨hcond.2.2.2.2.1, hcond.2.2.2.2.2⟩
    · cases hp
  · cases hp

/-- A parsed time is at most 1439 minutes after midnight. -/
theorem toMinutes_le {t : Nat × Nat} (h1 : t.1 ≤ 23) (h2 : t.2 ≤ 59) :
    toMinutes t ≤ 1439 := by
  unfold toMinutes
  omega

/-- On in-range minute counts the computed duration is at most 1439. -/
theorem durationMin_le {a b : Nat} (ha : a ≤ 1439) (hb : b ≤ 1439) :
    durationMin a b ≤ 1439 := by
  unfold durationMin
  split <;> omega

/-- When both time strings parse, `calculate_metrics` writes the wrapped
duration and its rounded percentage (lines 252-265 of schedule.py). -/
theorem calcRowUpdate_parse {s e : String} {st et : Nat × Nat}
    (hs : strptimeHM (strip s) = some st) (he : strptimeHM (strip e) = some et) :
    calcRowUpdate s e =
      some (((durationMin (toMinutes st) (toMinutes et) : ℕ) : ℚ),
        round1 (((durationMin (toMinutes st) (toMinutes et) : ℕ) : ℚ) /
          (TOTAL_MINUTES : ℚ) * 100)) := by
  have h1 := strip_parse_ne hs
  have h2 := strip_parse_ne he
  unfold calcRowUpdate
  rw [if_pos ⟨h1.1, h2.1, h1.2, h2.2⟩, hs, he]

/-- Any rational strictly above `n + 1/2` rounds (half-to-even) to at least
`n + 1`. -/
theorem roundHalfEvenInt_ge (q : ℚ) (n : ℤ) (h : (n : ℚ) + 1/2 < q) :
    n + 1 ≤ roundHalfEvenInt q := by
  have hle : (n : ℚ) ≤ q := by linarith
  have hnf : n ≤ ⌊q⌋ := Int.le_floor.mpr hle
  unfold roundHalfEvenInt
  by_cases h1 : q - ⌊q⌋ < 1/2
  · rw [if_pos h1]
    have hfq : q - 1 < (⌊q⌋ : ℚ) := by linarith [Int.sub_one_lt_floor q]
    have : (n : ℚ) < (⌊q⌋ : ℚ) := by linarith
    have : n < ⌊q⌋ := by exact_mod_cast this
    omega
  · rw [if_neg h1]
    by_cases h2 : 1/2 < q - ⌊q⌋
    · rw [if_pos h2]
      omega
    · rw [if_neg h2]
      have hq2 : q - ⌊q⌋ ≤ 1/2 := not_lt.mp h2
      have : (n : ℚ) < (⌊q⌋ : ℚ) := by linarith
      have : n < ⌊q⌋ := by exact_mod_cast this
      split <;> omega

/-- A list all of whose members fail a Boolean predicate filters to `[]`. -/
theorem filter_false_nil {α : Type} (p : α → Bool) :
    ∀ l : List α, (∀ r ∈ l, p r = false) → l.filter p = []
  | [], _ => rfl
  | a :: l, h => by
    have ha : p a = false := h a (List.mem_cons_self a l)
    rw [List.filter_cons, ha]
    simpa using filter_false_nil p l (fun r hr => h r (List.mem_cons_of_mem a hr))

/-- One loop iteration never changes the non-derived columns. -/
theorem updateRow_frame (r : Row) :
    (updateRow r).start = r.start ∧ (updateRow r).end_ = r.end_ ∧
    (updateRow r).category = r.category ∧ (updateRow r).activity = r.activity ∧
    (updateRow r).comment = r.comment := by
  unfold updateRow
  rcases h : calcRowUpdate r.start r.end_ with _ | ⟨d, p⟩ <;> exact ⟨rfl, rfl, rfl, rfl, rfl⟩

/-- The exception model of one loop iteration always returns normally, with
the same row the pure model produces. -/
theorem updateRowE_ok (r : Row) : updateRowE r = Except.ok (updateRow r) := by
  by_cases hg : r.start ≠ "" ∧ r.end_ ≠ "" ∧ r.start ≠ "nan" ∧ r.end_ ≠ "nan"
  · unfold updateRowE updateRow calcRowUpdate rowTryBody strptimeHME
    rw [if_pos hg, if_pos hg]
    rcases strptimeHM (strip r.start) with _ | st <;>
      rcases strptimeHM (strip r.end_) with _ | et <;> rfl
  · unfold updateRowE updateRow calcRowUpdate
    rw [if_neg hg, if_neg hg]

/-- With the guard passed but either string unparseable, the `except` branch
writes zeros into both derived columns. -/
theorem calcRowUpdate_fail {s e : String}
    (hg : s ≠ "" ∧ e ≠ "" ∧ s ≠ "nan" ∧ e ≠ "nan")
    (hbad : strptimeHM (strip s) = none ∨ strptimeHM (strip e) = none) :
    calcRowUpdate s e = some (0, 0) := by
  unfold calcRowUpdate
  rw [if_pos hg]
  rcases hs : strptimeHM (strip s) with _ | st <;> rcases he : strptimeHM (strip e) with _ | et
  · rfl
  · rfl
  · rfl
  · rcases hbad with hb | hb
    · rw [hs] at hb
      cases hb
    · rw [he] at hb
      cases hb

/-- When either string is empty or the `"nan"` placeholder, the guard on
line 249 fails and the row is skipped: nothing is written. -/
theorem calcRowUpdate_skip {s e : String}
    (hd : s = "" ∨ e = "" ∨ s = "nan" ∨ e = "nan") :
    calcRowUpdate s e = none := by
  have hng : ¬(s ≠ "" ∧ e ≠ "" ∧ s ≠ "nan" ∧ e ≠ "nan") := by
    rintro ⟨a, b, c, d⟩
    rcases hd with h | h | h | h
    exacts [a h, b h, c h, d h]
  unfold calcRowUpdate
  rw [if_neg hng]

/-- Any total of at least 720.5 minutes yields a rounded percentage strictly
above 100. -/
theorem round1_gt_100 (t : ℚ) (h : (1441:ℚ)/2 ≤ t) :
    (100:ℚ) < round1 (t / (TOTAL_MINUTES : ℚ) * 100) := by
  have hTM : ((TOTAL_MINUTES : ℕ) : ℚ) = 720 := by norm_num [TOTAL_MINUTES]
  unfold round1
  have hq : (1000:ℚ) + 1/2 < t / (TOTAL_MINUTES : ℚ) * 100 * 10 := by
    rw [hTM]
    have he : t / 720 * 100 * 10 = t * (25/18) := by ring
    rw [he]
    linarith
  have h1001 := roundHalfEvenInt_ge _ 1000 hq
  have hc : ((1001:ℤ) : ℚ) ≤ ((roundHalfEvenInt (t / (TOTAL_MINUTES : ℚ) * 100 * 10)) : ℚ) := by
    exact_mod_cast h1001
  have : ((1001:ℤ) : ℚ) = 1001 := by norm_num
  linarith

/-! ### Claims -/

/-- C1, counterexample: a row whose `Start` is empty is skipped by
`calculate_metrics`, so previously stored derived values (55 minutes, 7.6%)
survive unchanged instead of being set to `(0, 0.0)` as the claim states. -/
theorem C1_cex :
    calculate_metrics [⟨"", "09:00", some "Work", some "Read", none, some 55, some (76/10)⟩] =
      [⟨"", "09:00", some "Work", some "Read", none, some 55, some (76/10)⟩] ∧
    ¬ ((55:ℚ) = 0 ∧ (76:ℚ)/10 = 0) := by decide

/-- C1 (amended): an entry whose start or end is non-empty and not the
`"nan"` placeholder but fails to parse as a valid 24-hour `"H:MM"` time gets
both derived fields set to exactly `(0, 0.0)`; an entry whose start or end is
empty or the `"nan"` placeholder is skipped entirely, leaving the previously
stored derived values in place. -/
theorem C1_amended (s e : String) :
    ((s ≠ "" ∧ e ≠ "" ∧ s ≠ "nan" ∧ e ≠ "nan") →
      (strptimeHM (strip s) = none ∨ strptimeHM (strip e) = none) →
      calcRowUpdate s e = some (0, 0)) ∧
    ((s = "" ∨ e = "" ∨ s = "nan" ∨ e = "nan") → calcRowUpdate s e = none) :=
  ⟨fun hg hbad => calcRowUpdate_fail hg hbad, fun hd => calcRowUpdate_skip hd⟩

/-- C1 witness: `"9:99"` is non-empty and unparseable, and the computation
writes `(0, 0)`. -/
theorem C1_witness : calcRowUpdate "9:99" "08:00" = some (0, 0) :=
  (C1_amended "9:99" "08:00").1 (by decide) (Or.inl (by decide))

/-- C2, counterexample: the failure mode "start is the NaN placeholder" does
not degrade to the zeroed output — the row is skipped and keeps its stored
33-minute duration. -/
theorem C2_cex :
    calculate_metrics [⟨"nan", "09:00", some "Work", none, none, some 33, some (46/10)⟩] =
      [⟨"nan", "09:00", some "Work", none, none, some 33, some (46/10)⟩] ∧
    ¬ ((33:ℚ) = 0 ∧ (46:ℚ)/10 = 0) := by decide

/-- C2 (amended): the metric computation never raises or surfaces any
exception to the caller — in the model with `strptime`'s `ValueError` made
explicit, every input returns `Except.ok`, agreeing with the total function
`calculate_metrics`.  (Parse failures degrade to the zeroed output; empty or
placeholder inputs are skipped with stored values retained.) -/
theorem C2_amended : ∀ rows : List Row,
    calculate_metricsE rows = Except.ok (calculate_metrics rows) := by
  intro rows
  induction rows with
  | nil => rfl
  | cons a l ih =>
    unfold calculate_metricsE
    rw [updateRowE_ok a, ih]
    rfl

/-- C3: for every pair of valid times, the computed duration is
`end - start` when `end >= start`, and `end + 1440 - start` (wrapped once to
the next day) when `end` is strictly earlier. -/
theorem C3_duration : ∀ (s e : String) (st et : Nat × Nat),
    strptimeHM (strip s) = some st → strptimeHM (strip e) = some et →
    ∃ p : ℚ, calcRowUpdate s e =
      some (((if toMinutes st ≤ toMinutes et then toMinutes et - toMinutes st
        else toMinutes et + 1440 - toMinutes st : ℕ) : ℚ), p) := by
  intro s e st et hs he
  refine ⟨round1 (((durationMin (toMinutes st) (toMinutes et) : ℕ) : ℚ) /
    (TOTAL_MINUTES : ℚ) * 100), ?_⟩
  rw [calcRowUpdate_parse hs he]
  have hd : durationMin (toMinutes st) (toMinutes et) =
      (if toMinutes st ≤ toMinutes et then toMinutes et - toMinutes st
        else toMinutes et + 1440 - toMinutes st) := by
    unfold durationMin
    split <;> split <;> omega
  rw [hd]

/-- C3 witness: 22:00 to 01:30 crosses midnight, giving the wrapped
duration. -/
theorem C3_witness : ∃ p : ℚ, calcRowUpdate "22:00" "01:30" =
    some (((if toMinutes (22, 0) ≤ toMinutes (1, 30) then toMinutes (1, 30) - toMinutes (22, 0)
      else toMinutes (1, 30) + 1440 - toMinutes (22, 0) : ℕ) : ℚ), p) :=
  C3_duration "22:00" "01:30" (22, 0) (1, 30) (by decide) (by decide)

/-- C4: equal (valid) start and end times give duration 0, not 24 hours —
the next-day wrap applies only to a strictly earlier end. -/
theorem C4_equal_times : ∀ (s : String) (t : Nat × Nat),
    strptimeHM (strip s) = some t → calcRowUpdate s s = some (0, 0) := by
  intro s t h
  rw [calcRowUpdate_parse h h]
  have hd : durationMin (toMinutes t) (toMinutes t) = 0 := by
    unfold durationMin
    split <;> omega
  rw [hd]
  decide

/-- C4 witness at 09:00. -/
theorem C4_witness : calcRowUpdate "09:00" "09:00" = some (0, 0) :=
  C4_equal_times "09:00" (9, 0) (by decide)

/-- C5: whenever the computation writes the derived fields, the percentage is
`round(duration / 720 * 100, 1)` with the fixed 720-minute baseline, and in
particular 08:00-09:30 gives exactly `(90, 12.5)`. -/
theorem C5_percent :
    (∀ (s e : String) (d p : ℚ), calcRowUpdate s e = some (d, p) →
      p = round1 (d / (TOTAL_MINUTES : ℚ) * 100)) ∧
    calcRowUpdate "08:00" "09:30" = some (90, 25/2) := by
  constructor
  · intro s e d p h
    by_cases hg : s ≠ "" ∧ e ≠ "" ∧ s ≠ "nan" ∧ e ≠ "nan"
    · rcases hs : strptimeHM (strip s) with _ | st
      · rw [calcRowUpdate_fail hg (Or.inl hs)] at h
        injection h with h2
        rw [Prod.mk.injEq] at h2
        rw [← h2.1, ← h2.2]
        decide
      · rcases he : strptimeHM (strip e) with _ | et
        · rw [calcRowUpdate_fail hg (Or.inr he)] at h
          injection h with h2
          rw [Prod.mk.injEq] at h2
          rw [← h2.1, ← h2.2]
          decide
        · rw [calcRowUpdate_parse hs he] at h
          injection h with h2
          rw [Prod.mk.injEq] at h2
          rw [← h2.1, ← h2.2]
    · rw [calcRowUpdate_skip (by tauto)] at h
      cases h
  · decide

/-- C5 witness: 07:00-08:00 is 60 minutes, and its stored percentage 8.3 is
the rounded value of 60/720*100. -/
theorem C5_witness : (83:ℚ)/10 = round1 ((60:ℚ) / (TOTAL_MINUTES : ℚ) * 100) :=
  C5_percent.1 "07:00" "08:00" 60 (83/10) (by decide)

/-- C6, counterexample: 23:30-00:15 gives 45 minutes, but the stored
percentage is 6.2, not the claimed 6.3 (45/720*100 = 6.25 is a tie and
Python's round-half-to-even rounds it down to 6.2). -/
theorem C6_cex :
    calcRowUpdate "23:30" "00:15" = some (45, 31/5) ∧ ¬ ((31:ℚ)/5 = 63/10) := by decide

/-- C6 (amended): `compute_entry_metrics("23:30", "00:15")` returns exactly
`(45, 6.2)` — the 6.25 tie rounds to even, 6.2, under Python's `round`. -/
theorem C6_amended : calcRowUpdate "23:30" "00:15" = some (45, 31/5) := by decide

/-- C7: aggregation ignores entries whose grouping value is missing, empty or
the `"nan"` placeholder (dropping them changes nothing), and when no entry
qualifies the bucket list is empty. -/
theorem C7_aggregate : ∀ (rows : List Row) (gf : GroupField),
    aggregate rows gf = aggregate (rows.filter (validRow gf)) gf ∧
    ((∀ r ∈ rows, validRow gf r = false) → aggregate rows gf = []) := by
  intro rows gf
  constructor
  · have hff : (rows.filter (validRow gf)).filter (validRow gf) = rows.filter (validRow gf) :=
      List.filter_eq_self.mpr (fun a ha => (List.mem_filter.mp ha).2)
    unfold aggregate
    rw [hff]
  · intro hall
    have hnil : rows.filter (validRow gf) = [] := filter_false_nil _ rows hall
    unfold aggregate
    rw [hnil]
    rfl

/-- C7 witness: a single entry with an empty `Category` aggregates to no
buckets at all. -/
theorem C7_witness :
    aggregate [⟨"08:00", "09:00", some "", none, none, some 60, some (83/10)⟩]
      GroupField.category = [] :=
  (C7_aggregate [⟨"08:00", "09:00", some "", none, none, some 60, some (83/10)⟩]
    GroupField.category).2 (by decide)

/-- C8, counterexample: a group totalling 720.1 minutes exceeds the 720-minute
baseline, yet its bucket percentage is exactly 100 (100.0138... rounds to
100.0), not strictly greater than 100 as the claim states. -/
theorem C8_cex :
    aggregate [⟨"x", "x", some "Work", none, none, some (7201/10), none⟩] GroupField.category =
      [⟨"Work", 7201/10, 100⟩] ∧ (720:ℚ) < 7201/10 ∧ ¬ ((100:ℚ) < 100) := by decide

/-- C8 (amended): every bucket's percentage is `round(total / 720 * 100, 1)`
with no clamping, and it is strictly greater than 100 for any group whose
summed duration is at least 720.5 minutes (in particular for any
integer-valued total exceeding 720; fractional totals in (720, 720.36] round
to exactly 100.0). -/
theorem C8_amended : ∀ (rows : List Row) (gf : GroupField) (b : Bucket),
    b ∈ aggregate rows gf →
    b.percent = round1 (b.total / (TOTAL_MINUTES : ℚ) * 100) ∧
    ((1441:ℚ)/2 ≤ b.total → (100:ℚ) < b.percent) := by
  intro rows gf b hb
  unfold aggregate aggregateValid at hb
  rw [List.mem_map] at hb
  obtain ⟨k, hk, hbk⟩ := hb
  subst hbk
  constructor
  · rfl
  · intro htot
    exact round1_gt_100 _ htot

/-- C8 witness: a 721-minute group has percentage 100.1 > 100. -/
theorem C8_witness :
    (Bucket.mk "Work" 721 (1001/10)).percent =
      round1 ((Bucket.mk "Work" 721 (1001/10)).total / (TOTAL_MINUTES : ℚ) * 100) ∧
    (100:ℚ) < (Bucket.mk "Work" 721 (1001/10)).percent := by
  have h := C8_amended [⟨"x", "x", some "Work", none, none, some 721, none⟩]
    GroupField.category (Bucket.mk "Work" 721 (1001/10)) (by decide)
  exact ⟨h.1, h.2 (by decide)⟩

/-- C9: `calculate_metrics` touches only the two derived columns — the
`Start`, `End`, `Category`, `Activity` and `Comment` of every row, the number
of rows and their order are all unchanged (the function maps a fresh copy,
the input list itself being immutable). -/
theorem C9_frame : ∀ rows : List Row,
    (calculate_metrics rows).map (fun r => (r.start, r.end_, r.category, r.activity, r.comment)) =
      rows.map (fun r => (r.start, r.end_, r.category, r.activity, r.comment)) := by
  intro rows
  unfold calculate_metrics
  induction rows with
  | nil => rfl
  | cons a l ih =>
    have hf := updateRow_frame a
    simp only [List.map_cons, ih, hf.1, hf.2.1, hf.2.2.1, hf.2.2.2.1, hf.2.2.2.2]

/-- C10: whenever the computation writes a duration, it lies between 0 and
1439 minutes inclusive — never negative and never a full day or more. -/
theorem C10_range : ∀ (s e : String) (d p : ℚ),
    calcRowUpdate s e = some (d, p) → 0 ≤ d ∧ d ≤ 1439 := by
  intro s e d p h
  by_cases hg : s ≠ "" ∧ e ≠ "" ∧ s ≠ "nan" ∧ e ≠ "nan"
  · rcases hs : strptimeHM (strip s) with _ | st
    · rw [calcRowUpdate_fail hg (Or.inl hs)] at h
      injection h with h2
      rw [Prod.mk.injEq] at h2
      rw [← h2.1]
      norm_num
    · rcases he : strptimeHM (strip e) with _ | et
      · rw [calcRowUpdate_fail hg (Or.inr he)] at h
        injection h with h2
        rw [Prod.mk.injEq] at h2
        rw [← h2.1]
        norm_num
      · rw [calcRowUpdate_parse hs he] at h
        injection h with h2
        rw [Prod.mk.injEq] at h2
        rw [← h2.1]
        have hb1 := strptimeHM_bounds hs
        have hb2 := strptimeHM_bounds he
        have hd : durationMin (toMinutes st) (toMinutes et) ≤ 1439 :=
          durationMin_le (toMinutes_le hb1.1 hb1.2) (toMinutes_le hb2.1 hb2.2)
        constructor
        · exact Nat.cast_nonneg _
        · exact_mod_cast hd
  · rw [calcRowUpdate_skip (by tauto)] at h
    cases h

/-- C10 witness: the overnight pair 23:45-00:05 writes the in-range duration
20. -/
theorem C10_witness : calcRowUpdate "23:45" "00:05" = some (20, 14/5) ∧
    ((0:ℚ) ≤ 20 ∧ (20:ℚ) ≤ 1439) :=
  ⟨by decide, C10_range "23:45" "00:05" 20 (14/5) (by decide)⟩
